import Mathlib

/-!
Verification of the ARP (Autonomous Robot Protocol) python SDK server
(`arp_sdk/server.py`, `arp_sdk/types.py`) against its specification.

The server's session layer is shallowly embedded: Python dict-valued request
parameters become a `Dict` of `PyVal`s, the per-session mutable fields of
`ARPServer` become a `ServerState` record, each `_handle_*` coroutine becomes
a state-passing function, and `asyncio` effects that do not touch session
state (logging, broadcasting progress / context frames, wall-clock time,
uuid generation, the tool handler's own body) are passed in as explicit
inputs (`freshId`, `handlerOutcome`, `duration`) or dropped when they have no
observable effect on the session contract.  Python exceptions are modelled
with `Except`: `ARPError` (caught by `_handle_request`) as `PyExc.arp`, any
other exception (which escapes `_handle_request`, so no JSON-RPC response is
produced) as `PyExc.other` / a top-level `Except.error`.
-/

namespace ARP

/-- A Python/JSON value as it appears in request parameter maps.
`list` models both Python `list` and `tuple` (the code treats them alike via
`isinstance(target, (list, tuple))`); `num` models both `int` and `float`
(rationals stand in for floats: every literal the code manipulates is exact). -/
inductive PyVal : Type
  | none
  | bool (b : Bool)
  | num (q : ℚ)
  | str (s : String)
  | list (xs : List PyVal)

/-- Python `v is None` (identity with the `None` singleton). -/
def PyVal.isNone : PyVal → Bool
  | .none => true
  | _ => false

/-- Python truthiness (`if target`, `a or b`). -/
def PyVal.truthy : PyVal → Bool
  | .none => false
  | .bool b => b
  | .num q => decide (q ≠ 0)
  | .str s => decide (s ≠ "")
  | .list xs => !xs.isEmpty

/-- `isinstance(v, (int, float))`.  Python `bool` is a subclass of `int`,
so booleans count as numeric here, exactly as in CPython. -/
def PyVal.isNumLike : PyVal → Bool
  | .num _ => true
  | .bool _ => true
  | _ => false

/-- Strictly a number (`int`/`float` but not `bool`). -/
def PyVal.isNum : PyVal → Bool
  | .num _ => true
  | _ => false

/-- Numeric value used in Python comparisons (`True` compares as 1). -/
def PyVal.toQ : PyVal → ℚ
  | .num q => q
  | .bool b => if b then 1 else 0
  | _ => 0

/-- Python `a or b`: `a` if truthy, else `b`. -/
def pyOr (a b : PyVal) : PyVal := if a.truthy then a else b

/-- The single-quote character (code 39), as it appears in the
requires-confirmation message. -/
def sq : String := String.singleton (Char.ofNat 39)

/-- Rendering of a rational in messages; stands in for Python str() of a
number inside an f-string. -/
def qRepr (q : ℚ) : String :=
  if q.den = 1 then toString q.num else toString q.num ++ "/" ++ toString q.den

/-- Rendering of a scalar value inside an f-string.  String quoting of
Python `repr` is elided and a sequence nested inside another sequence is
abbreviated: the messages the code builds only ever interpolate numbers,
flat lists of numbers and names. -/
def PyVal.renderAtom : PyVal → String
  | .none => "None"
  | .bool b => if b then "True" else "False"
  | .num q => qRepr q
  | .str s => s
  | .list _ => "[...]"

/-- Rendering of a value inside an f-string (`f"Position {target}"`,
`f"Velocity {velocity}"`). -/
def PyVal.render : PyVal → String
  | .list xs => "[" ++ String.intercalate ", " (xs.map PyVal.renderAtom) ++ "]"
  | v => PyVal.renderAtom v

/-- A Python `dict[str, Any]` (request params / tool arguments), as an
association list in insertion order. -/
abbrev Dict := List (String × PyVal)

/-- `d.get(k)` returning `Option`: `some v` when the key is present. -/
def pyGetOpt : Dict → String → Option PyVal
  | [], _ => Option.none
  | (k0, v0) :: rest, k => if k0 = k then some v0 else pyGetOpt rest k

/-- `d.get(k)` as Python sees it: absent keys yield `None`. -/
def pyGet (d : Dict) (k : String) : PyVal := (pyGetOpt d k).getD PyVal.none

/-- `types.ToolState`. -/
inductive ToolState : Type
  | idle
  | running
  | completed
  | failed
  | cancelled
  deriving DecidableEq

/-- `types.SafetyLevel`. -/
inductive SafetyLevel : Type
  | normal
  | elevated
  | critical
  deriving DecidableEq

/-- `types.ConstraintType`. -/
inductive ConstraintType : Type
  | velocity_limit
  | workspace_bound
  | force_limit
  | collision_zone
  | emergency_stop
  | rate_limit
  deriving DecidableEq

/-- `types.ViolationAction`. -/
inductive ViolationAction : Type
  | reject
  | clamp
  | emergency_stop
  deriving DecidableEq

/-- `types.SafetyMetadata`. -/
structure SafetyMetadata : Type where
  level : SafetyLevel
  requires_confirmation : Bool := false
  reversible : Bool := true
  description : String := ""
  deriving DecidableEq

/-- `types.PhysicalTool`.  The `parameters` / `preconditions` / `effects`
documents are opaque to the session core (never inspected by any handler),
so they are not carried here. -/
structure PhysicalTool : Type where
  name : String
  description : String := ""
  safety : SafetyMetadata
  estimatedDuration : Option ℚ := Option.none
  deriving DecidableEq

/-- `types.ContextSource` (fields the session core consumes). -/
structure ContextSource : Type where
  name : String
  description : String := ""
  dataType : String := "custom"
  update_rate : Option ℚ := Option.none
  deriving DecidableEq

/-- The typed view of `SafetyConstraint.parameters` consumed by
`_check_constraints`: `min` / `max` for `workspace_bound` (arbitrary-length
number lists; the code indexes 0..2 and raises `IndexError` on short ones)
and `max_linear` for `velocity_limit`.  An absent key means the code falls
back to its −inf / +inf defaults. -/
structure ConstraintParams : Type where
  min : Option (List ℚ) := Option.none
  max : Option (List ℚ) := Option.none
  max_linear : Option ℚ := Option.none
  deriving DecidableEq

/-- `types.SafetyConstraint`. -/
structure SafetyConstraint : Type where
  name : String
  type : ConstraintType
  enabled : Bool := true
  priority : Int := 0
  parameters : ConstraintParams := {}
  violationAction : ViolationAction := ViolationAction.reject
  deriving DecidableEq

/-- `types.ServerInfo`. -/
structure ServerInfo : Type where
  name : String := "arp-server"
  version : String := "0.1.0"
  robotModel : Option String := Option.none
  robotType : Option String := Option.none
  deriving DecidableEq

/-- `types.CallToolResult` before serialization (`model_dump` with
`exclude_none` merely elides the `none` fields on the wire). -/
structure CallToolResult : Type where
  callId : String
  state : ToolState
  result : Option PyVal := Option.none
  error : Option String := Option.none
  duration : ℚ

/-- `types.ARPErrorCode`. -/
def ARPErrorCode.SAFETY_VIOLATION : Int := -40001

def ARPErrorCode.PRECONDITION_FAILED : Int := -40002

def ARPErrorCode.TOOL_NOT_FOUND : Int := -40003

def ARPErrorCode.TOOL_BUSY : Int := -40004

def ARPErrorCode.CONFIRMATION_TIMEOUT : Int := -40005

def ARPErrorCode.CONFIRMATION_DENIED : Int := -40006

def ARPErrorCode.EMERGENCY_STOPPED : Int := -40007

def ARPErrorCode.CONTEXT_NOT_FOUND : Int := -40008

def ARPErrorCode.NOT_INITIALIZED : Int := -40009

/-- `target[i] < bound` in Python: numeric-like values compare (booleans as
0/1); comparing anything else with a number raises `TypeError`. -/
def pyLtQ (t : PyVal) (m : ℚ) : Except String Bool :=
  if t.isNumLike then Except.ok (decide (t.toQ < m)) else Except.error "TypeError"

/-- `target[i] > bound`, same error behaviour as `pyLtQ`. -/
def pyGtQ (t : PyVal) (m : ℚ) : Except String Bool :=
  if t.isNumLike then Except.ok (decide (t.toQ > m)) else Except.error "TypeError"

/-- Comparison against the `-float("inf")` / `float("inf")` defaults of
`_check_constraints`: strictly false for numeric operands, `TypeError`
otherwise. -/
def pyCmpInf (t : PyVal) : Except String Bool :=
  if t.isNumLike then Except.ok false else Except.error "TypeError"

/-- Python list indexing `xs[i]`, raising `IndexError` out of range. -/
def pyIndexQ (xs : List ℚ) (i : Nat) : Except String ℚ :=
  match xs.get? i with
  | some q => Except.ok q
  | Option.none => Except.error "IndexError"

/-- `target[i] < mins[i]` where `mins = bounds.get("min", [-inf] * 3)`. -/
def coordBelowMin (p : ConstraintParams) (t : PyVal) (i : Nat) : Except String Bool :=
  match p.min with
  | Option.none => pyCmpInf t
  | some m => do pyLtQ t (← pyIndexQ m i)

/-- `target[i] > maxs[i]` where `maxs = bounds.get("max", [inf] * 3)`. -/
def coordAboveMax (p : ConstraintParams) (t : PyVal) (i : Nat) : Except String Bool :=
  match p.max with
  | Option.none => pyCmpInf t
  | some m => do pyGtQ t (← pyIndexQ m i)

/-- `target[i] < mins[i] or target[i] > maxs[i]` with Python short-circuit
evaluation (the upper bound is not evaluated when the lower one fires). -/
def coordViolates (p : ConstraintParams) (t : PyVal) (i : Nat) : Except String Bool := do
  if (← coordBelowMin p t i) then pure true else coordAboveMax p t i

/-- The violation string `f"Position {target} exceeds workspace boundary {constraint.name}"`. -/
def wsViolationMsg (xs : List PyVal) (cname : String) : String :=
  "Position " ++ PyVal.render (PyVal.list xs) ++ " exceeds workspace boundary " ++ cname

/-- The `workspace_bound` block of `_check_constraints`: guard
`if target and isinstance(target, (list, tuple)) and len(target) >= 3`,
then the `for i in range(3)` loop returning on the first violated
coordinate. -/
def wsCheck (c : SafetyConstraint) (args : Dict) : Except String (Option String) :=
  let target := pyGet args "target"
  if target.truthy then
    match target with
    | PyVal.list xs =>
      if 3 ≤ xs.length then do
        if (← coordViolates c.parameters (xs.getD 0 PyVal.none) 0) then
          pure (some (wsViolationMsg xs c.name))
        else if (← coordViolates c.parameters (xs.getD 1 PyVal.none) 1) then
          pure (some (wsViolationMsg xs c.name))
        else if (← coordViolates c.parameters (xs.getD 2 PyVal.none) 2) then
          pure (some (wsViolationMsg xs c.name))
        else pure Option.none
      else pure Option.none
    | _ => pure Option.none
  else pure Option.none

/-- The violation string `f"Velocity {velocity} exceeds limit {max_vel}"`. -/
def velViolationMsg (velocity : PyVal) (maxVel : ℚ) : String :=
  "Velocity " ++ PyVal.render velocity ++ " exceeds limit " ++ qRepr maxVel

/-- The `velocity_limit` block of `_check_constraints`:
`velocity = arguments.get("velocity") or arguments.get("speed")`, then
`if velocity is not None: ... if isinstance(velocity, (int, float)) and
velocity > max_vel`.  With `max_linear` absent the comparison is against
`float("inf")` and can never fire, so that branch yields no violation. -/
def velCheck (c : SafetyConstraint) (args : Dict) : Option String :=
  let velocity := pyOr (pyGet args "velocity") (pyGet args "speed")
  if velocity.isNone then Option.none
  else
    match c.parameters.max_linear with
    | some maxVel =>
      if velocity.isNumLike ∧ velocity.toQ > maxVel then
        some (velViolationMsg velocity maxVel)
      else Option.none
    | Option.none => Option.none

/-- The body of the `for constraint in self._constraints.values()` loop for
one constraint: the two type-dispatched blocks in source order (the types
are mutually exclusive, so at most one fires). -/
def checkOne (c : SafetyConstraint) (args : Dict) : Except String (Option String) := do
  let r1 ← if c.type = ConstraintType.workspace_bound then wsCheck c args else pure Option.none
  match r1 with
  | some v => pure (some v)
  | Option.none =>
    if c.type = ConstraintType.velocity_limit then pure (velCheck c args)
    else pure Option.none

/-- `ARPServer._check_constraints`: walk the enabled constraints in
registration order and return the first violation description (the
`tool_name` argument is accepted but never read, as in the source). -/
def checkConstraints (toolName : String) (cs : List SafetyConstraint) (args : Dict) :
    Except String (Option String) :=
  match cs with
  | [] => Except.ok Option.none
  | c :: rest =>
    if c.enabled = false then checkConstraints toolName rest args
    else do
      match ← checkOne c args with
      | some v => pure (some v)
      | Option.none => checkConstraints toolName rest args

/-- The mutable per-session fields of `ARPServer`.  Registries are
insertion-ordered association lists (Python dicts keyed by unique name);
`contextTasks` holds the names whose subscription task is currently live;
`activeCalls` is the `callId → ToolState` map. -/
structure ServerState : Type where
  serverInfo : ServerInfo := {}
  tools : List PhysicalTool := []
  contextSources : List ContextSource := []
  constraints : List SafetyConstraint := []
  activeCalls : List (String × ToolState) := []
  contextTasks : List String := []
  initialized : Bool := false
  emergencyStopped : Bool := false

/-- Lookup in the active-call map (`call_id in self._active_calls` /
`self._active_calls[call_id]`). -/
def getCall : List (String × ToolState) → String → Option ToolState
  | [], _ => Option.none
  | (k0, v0) :: rest, k => if k0 = k then some v0 else getCall rest k

/-- Dict update `self._active_calls[call_id] = state` (replace in place, or
append when the key is new). -/
def setCall : List (String × ToolState) → String → ToolState → List (String × ToolState)
  | [], k, v => [(k, v)]
  | (k0, v0) :: rest, k, v =>
    if k0 = k then (k, v) :: rest else (k0, v0) :: setCall rest k v

/-- Tool registry lookup (`tool_name in self._tools` / `self._tools[tool_name]`). -/
def findTool : List PhysicalTool → String → Option PhysicalTool
  | [], _ => Option.none
  | t :: rest, n => if t.name = n then some t else findTool rest n

/-- Context-source registry lookup. -/
def findSource : List ContextSource → String → Option ContextSource
  | [], _ => Option.none
  | s :: rest, n => if s.name = n then some s else findSource rest n

/-- Constraint registry lookup. -/
def findConstraint : List SafetyConstraint → String → Option SafetyConstraint
  | [], _ => Option.none
  | c :: rest, n => if c.name = n then some c else findConstraint rest n

/-- A payload of a JSON-RPC `error.data` object produced by the server:
either `{"constraint": <detail>}` or `{"requiresConfirmation": True}`. -/
inductive ErrData : Type
  | constraintDetail (detail : String)
  | requiresConfirmationFlag

/-- A JSON-RPC error object (`code`, `message`, optional `data`). -/
structure ErrorObj : Type where
  code : Int
  message : String
  data : Option ErrData := Option.none

/-- A Python exception thrown by a handler: an `ARPError` (which
`_handle_request` converts to a JSON-RPC error response) or any other
exception (which escapes `_handle_request`, killing the request). -/
inductive PyExc : Type
  | arp (e : ErrorObj)
  | other (msg : String)

/-- A successful JSON-RPC result payload, by method. -/
inductive RpcResult : Type
  | initResult (protocolVersion : String) (serverInfo : ServerInfo)
  | statusOk
  | toolsList (tools : List PhysicalTool)
  | callResult (r : CallToolResult)
  | cancelResult (callId : String) (state : String)
  | sourcesList (sources : List ContextSource)
  | subscribedResult (name : String)
  | unsubscribedResult (name : String)
  | constraintsList (cs : List SafetyConstraint)
  | constraintResult (c : SafetyConstraint)
  | workspaceOk (name : String)

/-- A JSON-RPC response body: `result` or `error`. -/
inductive Response : Type
  | result (r : RpcResult)
  | error (e : ErrorObj)

/-- `arp.callTool` request parameters (`name` and `arguments` fall back to
`""` / `{}` when the keys are absent, as in `params.get`). -/
structure CallToolParams : Type where
  name : String := ""
  callId : Option String := Option.none
  arguments : Dict := []

/-- `ARPServer._handle_initialize`. -/
def handleInit (s : ServerState) : ServerState × Except PyExc RpcResult :=
  ({ s with initialized := true },
   Except.ok (RpcResult.initResult "0.1.0" s.serverInfo))

/-- `ARPServer._handle_shutdown`: cancel and clear the context tasks, flip
`initialized` off. -/
def handleShutdown (s : ServerState) : ServerState × Except PyExc RpcResult :=
  ({ s with contextTasks := [], initialized := false }, Except.ok RpcResult.statusOk)

/-- `ARPServer._handle_list_tools`. -/
def handleListTools (s : ServerState) : ServerState × Except PyExc RpcResult :=
  (s, Except.ok (RpcResult.toolsList s.tools))

/-- Result of `_handle_call_tool`: the state at the handler-dispatch
suspension point (`mid`, reached only on admission), the state when the
coroutine returns (`final`), and the outcome. -/
structure CallToolOut : Type where
  mid : ServerState
  final : ServerState
  out : Except PyExc CallToolResult

/-- `ARPServer._handle_call_tool`.  The non-deterministic environment is
passed in: `freshId` is the `str(uuid.uuid4())` default for an absent
`callId`, `handlerOutcome` is what `await handler(**arguments)` does
(returns a value or raises with a message), `duration` is the elapsed
monotonic time. -/
def handleCallTool (s : ServerState) (p : CallToolParams) (freshId : String)
    (handlerOutcome : Except String PyVal) (duration : ℚ) : CallToolOut :=
  let tool_name := p.name
  let call_id := p.callId.getD freshId
  let arguments := p.arguments
  if s.emergencyStopped then
    ⟨s, s, Except.error (PyExc.arp
      ⟨ARPErrorCode.EMERGENCY_STOPPED, "Emergency stop active", Option.none⟩)⟩
  else
    match findTool s.tools tool_name with
    | Option.none =>
      ⟨s, s, Except.error (PyExc.arp
        ⟨ARPErrorCode.TOOL_NOT_FOUND, "Tool not found: " ++ tool_name, Option.none⟩)⟩
    | some tool_def =>
      if getCall s.activeCalls call_id = some ToolState.running then
        ⟨s, s, Except.error (PyExc.arp
          ⟨ARPErrorCode.TOOL_BUSY, "Tool call " ++ call_id ++ " already running", Option.none⟩)⟩
      else
        match checkConstraints tool_name s.constraints arguments with
        | Except.error e => ⟨s, s, Except.error (PyExc.other e)⟩
        | Except.ok (some violation) =>
          ⟨s, s, Except.error (PyExc.arp
            ⟨ARPErrorCode.SAFETY_VIOLATION, "Safety violation: " ++ violation,
             some (ErrData.constraintDetail violation)⟩)⟩
        | Except.ok Option.none =>
          if tool_def.safety.requires_confirmation then
            ⟨s, s, Except.error (PyExc.arp
              ⟨ARPErrorCode.SAFETY_VIOLATION,
               "Tool " ++ sq ++ tool_name ++ sq ++ " requires human confirmation",
               some ErrData.requiresConfirmationFlag⟩)⟩
          else
            let sMid := { s with activeCalls := setCall s.activeCalls call_id ToolState.running }
            match handlerOutcome with
            | Except.ok result =>
              ⟨sMid,
               { sMid with activeCalls := setCall sMid.activeCalls call_id ToolState.completed },
               Except.ok { callId := call_id, state := ToolState.completed,
                           result := some result, duration := duration }⟩
            | Except.error msg =>
              ⟨sMid,
               { sMid with activeCalls := setCall sMid.activeCalls call_id ToolState.failed },
               Except.ok { callId := call_id, state := ToolState.failed,
                           error := some msg, duration := duration }⟩

/-- `ARPServer._handle_cancel_tool`: any present record, whatever its state,
is overwritten with `cancelled`. -/
def handleCancelTool (s : ServerState) (callId : String) : ServerState × Except PyExc RpcResult :=
  if (getCall s.activeCalls callId).isSome then
    ({ s with activeCalls := setCall s.activeCalls callId ToolState.cancelled },
     Except.ok (RpcResult.cancelResult callId "cancelled"))
  else (s, Except.ok (RpcResult.cancelResult callId "not_found"))

/-- `ARPServer._handle_list_context`. -/
def handleListContext (s : ServerState) : ServerState × Except PyExc RpcResult :=
  (s, Except.ok (RpcResult.sourcesList s.contextSources))

/-- `ARPServer._handle_subscribe_context`.  The spawned task's rate
(`max_rate or source.update_rate or 1.0`) configures its sleep interval
only, which has no bearing on session state; task liveness is recorded as
membership of the name in `contextTasks`. -/
def handleSubscribeContext (s : ServerState) (name : String) (_maxRate : Option ℚ) :
    ServerState × Except PyExc RpcResult :=
  match findSource s.contextSources name with
  | Option.none =>
    (s, Except.error (PyExc.arp
      ⟨ARPErrorCode.CONTEXT_NOT_FOUND, "Context source not found: " ++ name, Option.none⟩))
  | some _ =>
    if s.contextTasks.contains name then (s, Except.ok (RpcResult.subscribedResult name))
    else ({ s with contextTasks := s.contextTasks ++ [name] },
          Except.ok (RpcResult.subscribedResult name))

/-- `ARPServer._handle_unsubscribe_context`: cancel and delete the task when
present; the result names the source either way. -/
def handleUnsubscribeContext (s : ServerState) (name : String) :
    ServerState × Except PyExc RpcResult :=
  if s.contextTasks.contains name then
    ({ s with contextTasks := s.contextTasks.erase name },
     Except.ok (RpcResult.unsubscribedResult name))
  else (s, Except.ok (RpcResult.unsubscribedResult name))

/-- `ARPServer._handle_list_constraints`. -/
def handleListConstraints (s : ServerState) : ServerState × Except PyExc RpcResult :=
  (s, Except.ok (RpcResult.constraintsList s.constraints))

/-- `ARPServer._handle_get_constraint`. -/
def handleGetConstraint (s : ServerState) (name : String) : ServerState × Except PyExc RpcResult :=
  match findConstraint s.constraints name with
  | Option.none =>
    (s, Except.error (PyExc.arp
      ⟨ARPErrorCode.SAFETY_VIOLATION, "Constraint not found: " ++ name, Option.none⟩))
  | some c => (s, Except.ok (RpcResult.constraintResult c))

/-- `ARPServer._handle_set_workspace`. -/
def handleSetWorkspace (s : ServerState) (name : String) : ServerState × Except PyExc RpcResult :=
  (s, Except.ok (RpcResult.workspaceOk name))

/-- `ARPServer._handle_emergency_stop`: latch the flag and cancel every
running active call. -/
def handleEmergencyStop (s : ServerState) (_reason : String) : ServerState :=
  { s with
    emergencyStopped := true,
    activeCalls := s.activeCalls.map
      (fun kv => if kv.2 = ToolState.running then (kv.1, ToolState.cancelled) else kv) }

/-- The typed request parameters of each method (a request whose params dict
lacks the keys a handler reads behaves like the handler's `params.get`
defaults; `ReqParams.empty` is any params object carrying none of them). -/
inductive ReqParams : Type
  | empty
  | callTool (p : CallToolParams)
  | cancelTool (callId : String)
  | subscribeContext (name : String) (maxRate : Option ℚ)
  | unsubscribeContext (name : String)
  | getConstraint (name : String)
  | setWorkspace (name : String)

/-- What `_handle_call_tool` reads out of an arbitrary params dict. -/
def ReqParams.asCallTool : ReqParams → CallToolParams
  | .callTool p => p
  | _ => {}

/-- `params.get("callId", "")` as read by `_handle_cancel_tool`. -/
def ReqParams.asCallId : ReqParams → String
  | .cancelTool c => c
  | _ => ""

/-- `params.get("name", "")` as read by the name-keyed handlers. -/
def ReqParams.asName : ReqParams → String
  | .subscribeContext n _ => n
  | .unsubscribeContext n => n
  | .getConstraint n => n
  | .setWorkspace n => n
  | _ => ""

/-- `params.get("maxRate")` as read by `_handle_subscribe_context`. -/
def ReqParams.asMaxRate : ReqParams → Option ℚ
  | .subscribeContext _ r => r
  | _ => Option.none

/-- The keys of the `handlers` dict in `_handle_request`. -/
def knownMethods : List String :=
  ["arp.initialize", "arp.shutdown", "arp.listTools", "arp.callTool", "arp.cancelTool",
   "arp.listContext", "arp.subscribeContext", "arp.unsubscribeContext",
   "arp.listConstraints", "arp.getConstraint", "arp.setWorkspace"]

/-- Convert a handler outcome into what `_handle_request` sends back:
an `ARPError` becomes a JSON-RPC error response, any other exception
escapes (`Except.error`), a value becomes a result response. -/
def wrapOutcome : Except PyExc RpcResult → Except String Response
  | Except.ok r => Except.ok (Response.result r)
  | Except.error (PyExc.arp e) => Except.ok (Response.error e)
  | Except.error (PyExc.other m) => Except.error m

/-- Result of dispatching one request: the state at the `await handler`
suspension point inside `_handle_call_tool` (equal to `final` for every
other path), the state when the dispatcher returns, and the response body
(an `Except.error` means a non-`ARPError` exception escaped and no JSON-RPC
response was produced). -/
structure RequestOut : Type where
  mid : ServerState
  final : ServerState
  response : Except String Response

/-- `ARPServer._handle_request`: method lookup (unknown methods answer
`-32601` before anything else), the initialization guard, then dispatch to
the per-method handler with `ARPError` converted to an error response. -/
def handleRequest (s : ServerState) (method : String) (params : ReqParams)
    (freshId : String) (handlerOutcome : Except String PyVal) (duration : ℚ) : RequestOut :=
  if knownMethods.contains method = false then
    ⟨s, s, Except.ok (Response.error ⟨-32601, "Method not found: " ++ method, Option.none⟩)⟩
  else if method ≠ "arp.initialize" ∧ s.initialized = false then
    ⟨s, s, Except.ok (Response.error
      ⟨ARPErrorCode.NOT_INITIALIZED, "Not initialized", Option.none⟩)⟩
  else if method = "arp.callTool" then
    let o := handleCallTool s params.asCallTool freshId handlerOutcome duration
    ⟨o.mid, o.final, wrapOutcome (o.out.map RpcResult.callResult)⟩
  else
    let o : ServerState × Except PyExc RpcResult :=
      if method = "arp.initialize" then handleInit s
      else if method = "arp.shutdown" then handleShutdown s
      else if method = "arp.listTools" then handleListTools s
      else if method = "arp.cancelTool" then handleCancelTool s params.asCallId
      else if method = "arp.listContext" then handleListContext s
      else if method = "arp.subscribeContext" then
        handleSubscribeContext s params.asName params.asMaxRate
      else if method = "arp.unsubscribeContext" then handleUnsubscribeContext s params.asName
      else if method = "arp.listConstraints" then handleListConstraints s
      else if method = "arp.getConstraint" then handleGetConstraint s params.asName
      else handleSetWorkspace s params.asName
    ⟨o.1, o.1, wrapOutcome o.2⟩

/-- One inbound frame: a request (with its environment inputs) or a
notification.  `_handle_notification` only reacts to `arp.emergencyStop`. -/
inductive Event : Type
  | request (method : String) (params : ReqParams) (freshId : String)
      (handlerOutcome : Except String PyVal) (duration : ℚ)
  | notification (method : String) (reason : String)

/-- Outcome of processing one frame. -/
structure StepOut : Type where
  mid : ServerState
  final : ServerState
  response : Option (Except String Response)

/-- Process one inbound frame against the session state. -/
def step (s : ServerState) (e : Event) : StepOut :=
  match e with
  | .request m p f h d =>
    let r := handleRequest s m p f h d
    ⟨r.mid, r.final, some r.response⟩
  | .notification m reason =>
    if m = "arp.emergencyStop" then
      let s2 := handleEmergencyStop s reason
      ⟨s2, s2, Option.none⟩
    else ⟨s, s, Option.none⟩

/-- Specification-side statement (spec §4.4) of one coordinate of the
`workspace_bound` rule: coordinate `i` violates when `t < min[i]` or
`t > max[i]`, a missing `min`/`max` defaulting to −∞/+∞ (no violation from
that side). -/
def specCoordViol (p : ConstraintParams) (t : ℚ) (i : Nat) : Bool :=
  (match p.min with
   | some m => decide (t < m.getD i 0)
   | Option.none => false) ||
  (match p.max with
   | some m => decide (t > m.getD i 0)
   | Option.none => false)

/-- Specification-side statement of the `workspace_bound` rule: when
`arguments.target` is a sequence of at least three numbers, a violation is
reported exactly when some coordinate in {0,1,2} escapes the bounds, with
the description built from the target and the constraint name; any other
target shape has no effect. -/
def specWsViolation (c : SafetyConstraint) (args : Dict) : Option String :=
  match pyGet args "target" with
  | PyVal.list xs =>
    if 3 ≤ xs.length then
      match xs.getD 0 PyVal.none, xs.getD 1 PyVal.none, xs.getD 2 PyVal.none with
      | PyVal.num t0, PyVal.num t1, PyVal.num t2 =>
        if specCoordViol c.parameters t0 0 || specCoordViol c.parameters t1 1
            || specCoordViol c.parameters t2 2 then
          some (wsViolationMsg xs c.name)
        else Option.none
      | _, _, _ => Option.none
    else Option.none
  | _ => Option.none

/-- Specification-side per-constraint rule: the claim's `workspace_bound`
rule; other constraint types keep the evaluator's own rule (the claim under
proof specifies only ordering and the workspace rule). -/
def specPerConstraint (c : SafetyConstraint) (args : Dict) : Option String :=
  if c.type = ConstraintType.workspace_bound then specWsViolation c args
  else if c.type = ConstraintType.velocity_limit then velCheck c args
  else Option.none

/-- Specification-side evaluator: first enabled violating constraint in
registration order. -/
def specFirstViolation (cs : List SafetyConstraint) (args : Dict) : Option String :=
  match cs with
  | [] => Option.none
  | c :: rest =>
    if c.enabled then
      match specPerConstraint c args with
      | some v => some v
      | Option.none => specFirstViolation rest args
    else specFirstViolation rest args

/-- Well-formed workspace bounds: `min`/`max`, when given, are length-3
(shorter lists make the Python loop raise `IndexError`, a case outside
every claim). -/
def boundsWF (c : SafetyConstraint) : Bool :=
  (match c.parameters.min with
   | some m => decide (m.length = 3)
   | Option.none => true) &&
  (match c.parameters.max with
   | some m => decide (m.length = 3)
   | Option.none => true)

/-- Well-typed target: when `arguments.target` is a sequence of length ≥ 3,
its first three entries are numbers (anything else makes the Python
comparison raise `TypeError`, a case outside every claim). -/
def targetNumericB (args : Dict) : Bool :=
  match pyGet args "target" with
  | PyVal.list xs =>
    if 3 ≤ xs.length then
      (xs.getD 0 PyVal.none).isNum && (xs.getD 1 PyVal.none).isNum
        && (xs.getD 2 PyVal.none).isNum
    else true
  | _ => true

/-- The active-call transitions the code actually performs, per processed
frame: unchanged; admission of a not-currently-running (or absent) id to
`running`; `running` to a terminal state when the handler returns or
raises; any present record to `cancelled` on explicit `arp.cancelTool`;
`running` to `cancelled` on emergency stop. -/
def callTransOk (before after : Option ToolState) : Prop :=
  after = before
  ∨ (after = some ToolState.running ∧ before ≠ some ToolState.running)
  ∨ (before = some ToolState.running ∧
      (after = some ToolState.completed ∨ after = some ToolState.failed
        ∨ after = some ToolState.cancelled))
  ∨ (before.isSome = true ∧ after = some ToolState.cancelled)

/-- Concrete fixture mirroring `tests/test_server.py`: the `move_to` tool. -/
def move_to_tool : PhysicalTool :=
  { name := "move_to", safety := { level := SafetyLevel.normal } }

/-- Fixture: the `activate_cutter` tool with `requiresConfirmation`. -/
def cutter_tool : PhysicalTool :=
  { name := "activate_cutter",
    safety := { level := SafetyLevel.critical, requires_confirmation := true } }

/-- Fixture: the `workspace_limits` constraint, `min=[-2,-2,0]`, `max=[2,2,3]`. -/
def workspace_limits : SafetyConstraint :=
  { name := "workspace_limits", type := ConstraintType.workspace_bound,
    parameters := { min := some [-2, -2, 0], max := some [2, 2, 3] } }

/-- Fixture: the `speed_limit` constraint, `max_linear = 1`. -/
def speed_limit : SafetyConstraint :=
  { name := "speed_limit", type := ConstraintType.velocity_limit,
    parameters := { max_linear := some 1 } }

/-- Fixture: an initialized session with the test tools and constraints. -/
def testServer : ServerState :=
  { tools := [move_to_tool, cutter_tool],
    contextSources := [{ name := "odometry", dataType := "pose", update_rate := some 10 }],
    constraints := [workspace_limits, speed_limit],
    initialized := true }

theorem getCall_setCall (m : List (String × ToolState)) (k : String) (v : ToolState)
    (k' : String) :
    getCall (setCall m k v) k' = if k = k' then some v else getCall m k' := by
  induction m with
  | nil => by_cases h : k = k' <;> simp [setCall, getCall, h]
  | cons kv rest ih =>
    obtain ⟨k0, v0⟩ := kv
    by_cases h0 : k0 = k
    · subst h0
      by_cases h : k0 = k' <;> simp [setCall, getCall, h]
    · by_cases h : k0 = k'
      · subst h
        have : ¬k = k0 := fun hh => h0 hh.symm
        simp [setCall, getCall, h0, this]
      · simp [setCall, getCall, h0, h, ih]

theorem getCall_map_cancel (m : List (String × ToolState)) (cid : String) :
    getCall (m.map (fun kv => if kv.2 = ToolState.running then (kv.1, ToolState.cancelled) else kv))
        cid
      = if getCall m cid = some ToolState.running then some ToolState.cancelled
        else getCall m cid := by
  induction m with
  | nil => simp [getCall]
  | cons kv rest ih =>
    obtain ⟨k, v⟩ := kv
    by_cases hk : k = cid
    · cases v <;> simp [getCall, hk, ih]
    · cases v <;> simp [getCall, hk, ih]

/-- `arp.callTool` on an initialized session dispatches to
`_handle_call_tool`. -/
theorem handleRequest_callTool (s : ServerState) (p : ReqParams) (f : String)
    (h : Except String PyVal) (d : ℚ) (hinit : s.initialized = true) :
    handleRequest s "arp.callTool" p f h d
      = ⟨(handleCallTool s p.asCallTool f h d).mid,
         (handleCallTool s p.asCallTool f h d).final,
         wrapOutcome ((handleCallTool s p.asCallTool f h d).out.map RpcResult.callResult)⟩ := by
  simp [handleRequest, knownMethods, hinit]

/-- C1: with the emergency-stop flag latched, any `arp.callTool` request in
an initialized session is answered with the JSON-RPC error −40007
(`EMERGENCY_STOPPED`), whatever the tool name, call id, arguments, handler
behaviour or timing, and the session state (in particular the active-call
map) is untouched; and the `arp.emergencyStop` notification handler sets
the flag and moves exactly the `running` active calls to `cancelled`,
leaving every other record unchanged. -/
theorem C1_emergencyStop_blocks_callTool (s : ServerState) (p : ReqParams) (f : String)
    (h : Except String PyVal) (d : ℚ)
    (hinit : s.initialized = true) (hstop : s.emergencyStopped = true) :
    (handleRequest s "arp.callTool" p f h d).response
        = Except.ok (Response.error
            ⟨ARPErrorCode.EMERGENCY_STOPPED, "Emergency stop active", Option.none⟩)
    ∧ (handleRequest s "arp.callTool" p f h d).final = s
    ∧ (∀ (s' : ServerState) (reason : String),
        (handleEmergencyStop s' reason).emergencyStopped = true
        ∧ ∀ cid, getCall (handleEmergencyStop s' reason).activeCalls cid
            = if getCall s'.activeCalls cid = some ToolState.running then some ToolState.cancelled
              else getCall s'.activeCalls cid) := by
  rw [handleRequest_callTool s p f h d hinit]
  refine ⟨?_, ?_, ?_⟩
  · simp [handleCallTool, hstop, wrapOutcome, Except.map]
  · simp [handleCallTool, hstop]
  · intro s' reason
    exact ⟨rfl, fun cid => getCall_map_cancel s'.activeCalls cid⟩

/-- Witness for C1 at a concrete emergency-stopped session. -/
theorem C1_emergencyStop_blocks_callTool_witness :
    (handleRequest { initialized := true, emergencyStopped := true } "arp.callTool"
        (ReqParams.callTool { name := "move_to" }) "id-1" (Except.ok PyVal.none) 0).response
      = Except.ok (Response.error
          ⟨ARPErrorCode.EMERGENCY_STOPPED, "Emergency stop active", Option.none⟩) :=
  (C1_emergencyStop_blocks_callTool { initialized := true, emergencyStopped := true }
    (ReqParams.callTool { name := "move_to" }) "id-1" (Except.ok PyVal.none) 0 rfl rfl).1

/-- C2: the admission checks of an `arp.callTool` request on an initialized
session apply in the fixed order: emergency-stop flag (−40007), unknown
tool name (−40003), supplied callId mapped to a running call (−40004),
constraint violation (−40001, message "Safety violation: <detail>", data
`{constraint: <detail>}`), requires-confirmation flag (−40001, data
`{requiresConfirmation: true}`); the first failing check determines the
JSON-RPC error; an absent callId is replaced by the freshly generated id. -/
theorem C2_admission_order (s : ServerState) (p : CallToolParams) (f : String)
    (h : Except String PyVal) (d : ℚ) (hinit : s.initialized = true) :
    (s.emergencyStopped = true →
      (handleRequest s "arp.callTool" (ReqParams.callTool p) f h d).response
        = Except.ok (Response.error
            ⟨ARPErrorCode.EMERGENCY_STOPPED, "Emergency stop active", Option.none⟩))
    ∧ (s.emergencyStopped = false → findTool s.tools p.name = Option.none →
      (handleRequest s "arp.callTool" (ReqParams.callTool p) f h d).response
        = Except.ok (Response.error
            ⟨ARPErrorCode.TOOL_NOT_FOUND, "Tool not found: " ++ p.name, Option.none⟩))
    ∧ (∀ t c, s.emergencyStopped = false → findTool s.tools p.name = some t →
        p.callId = some c → getCall s.activeCalls c = some ToolState.running →
      (handleRequest s "arp.callTool" (ReqParams.callTool p) f h d).response
        = Except.ok (Response.error
            ⟨ARPErrorCode.TOOL_BUSY, "Tool call " ++ c ++ " already running", Option.none⟩))
    ∧ (∀ t v, s.emergencyStopped = false → findTool s.tools p.name = some t →
        getCall s.activeCalls (p.callId.getD f) ≠ some ToolState.running →
        checkConstraints p.name s.constraints p.arguments = Except.ok (some v) →
      (handleRequest s "arp.callTool" (ReqParams.callTool p) f h d).response
        = Except.ok (Response.error
            ⟨ARPErrorCode.SAFETY_VIOLATION, "Safety violation: " ++ v,
             some (ErrData.constraintDetail v)⟩))
    ∧ (∀ t, s.emergencyStopped = false → findTool s.tools p.name = some t →
        getCall s.activeCalls (p.callId.getD f) ≠ some ToolState.running →
        checkConstraints p.name s.constraints p.arguments = Except.ok Option.none →
        t.safety.requires_confirmation = true →
      (handleRequest s "arp.callTool" (ReqParams.callTool p) f h d).response
        = Except.ok (Response.error
            ⟨ARPErrorCode.SAFETY_VIOLATION,
             "Tool " ++ sq ++ p.name ++ sq ++ " requires human confirmation",
             some ErrData.requiresConfirmationFlag⟩))
    ∧ (∀ t, p.callId = Option.none → s.emergencyStopped = false →
        findTool s.tools p.name = some t →
        getCall s.activeCalls f ≠ some ToolState.running →
        checkConstraints p.name s.constraints p.arguments = Except.ok Option.none →
        t.safety.requires_confirmation = false →
        ∃ r : CallToolResult,
          (handleRequest s "arp.callTool" (ReqParams.callTool p) f h d).response
              = Except.ok (Response.result (RpcResult.callResult r))
          ∧ r.callId = f) := by
  rw [handleRequest_callTool s (ReqParams.callTool p) f h d hinit]
  refine ⟨?_, ?_, ?_, ?_, ?_, ?_⟩
  · intro hstop
    simp [ReqParams.asCallTool, handleCallTool, hstop, wrapOutcome, Except.map]
  · intro hstop hnone
    simp [ReqParams.asCallTool, handleCallTool, hstop, hnone, wrapOutcome, Except.map]
  · intro t c hstop hfind hcid hrun
    simp [ReqParams.asCallTool, handleCallTool, hstop, hfind, hcid, hrun, wrapOutcome, Except.map]
  · intro t v hstop hfind hbusy hcons
    simp [ReqParams.asCallTool, handleCallTool, hstop, hfind, hbusy, hcons, wrapOutcome, Except.map]
  · intro t hstop hfind hbusy hcons hconf
    simp [ReqParams.asCallTool, handleCallTool, hstop, hfind, hbusy, hcons, hconf, wrapOutcome,
      Except.map]
  · intro t hcid hstop hfind hbusy hcons hconf
    cases h with
    | ok v =>
      refine ⟨{ callId := f, state := ToolState.completed, result := some v, duration := d }, ?_, rfl⟩
      simp [ReqParams.asCallTool, handleCallTool, hcid, hstop, hfind, hbusy, hcons, hconf,
        wrapOutcome, Except.map]
    | error m =>
      refine ⟨{ callId := f, state := ToolState.failed, error := some m, duration := d }, ?_, rfl⟩
      simp [ReqParams.asCallTool, handleCallTool, hcid, hstop, hfind, hbusy, hcons, hconf,
        wrapOutcome, Except.map]

/-- Witness for C2: the constraint-violation admission failure at a
concrete session. -/
theorem C2_admission_order_witness :
    (handleRequest testServer "arp.callTool"
        (ReqParams.callTool
          { name := "move_to",
            arguments := [("target", PyVal.list [PyVal.num 5, PyVal.num 0, PyVal.num 0])] })
        "id-2" (Except.ok PyVal.none) 0).response
      = Except.ok (Response.error
          ⟨ARPErrorCode.SAFETY_VIOLATION,
           "Safety violation: Position [5, 0, 0] exceeds workspace boundary workspace_limits",
           some (ErrData.constraintDetail
             "Position [5, 0, 0] exceeds workspace boundary workspace_limits")⟩) :=
  (C2_admission_order testServer
    { name := "move_to",
      arguments := [("target", PyVal.list [PyVal.num 5, PyVal.num 0, PyVal.num 0])] }
    "id-2" (Except.ok PyVal.none) 0 rfl).2.2.2.1
    move_to_tool
    "Position [5, 0, 0] exceeds workspace boundary workspace_limits" rfl rfl
    (by simp [testServer, getCall]) rfl

/-- C3: an admitted `arp.callTool` whose handler returns a value answers a
JSON-RPC result `{callId, state: completed, result, duration}`; one whose
handler raises still answers a JSON-RPC result (not an error) with
`{callId, state: failed, error: <message>, duration}`; in both cases the
active-call record of the admitted id is set to the matching terminal
state. -/
theorem C3_handler_outcomes (s : ServerState) (p : CallToolParams) (f : String) (d : ℚ)
    (t : PhysicalTool)
    (hinit : s.initialized = true) (hstop : s.emergencyStopped = false)
    (hfind : findTool s.tools p.name = some t)
    (hbusy : getCall s.activeCalls (p.callId.getD f) ≠ some ToolState.running)
    (hcons : checkConstraints p.name s.constraints p.arguments = Except.ok Option.none)
    (hconf : t.safety.requires_confirmation = false) :
    (∀ v : PyVal,
      (handleRequest s "arp.callTool" (ReqParams.callTool p) f (Except.ok v) d).response
          = Except.ok (Response.result (RpcResult.callResult
              { callId := p.callId.getD f, state := ToolState.completed,
                result := some v, duration := d }))
      ∧ getCall ((handleRequest s "arp.callTool" (ReqParams.callTool p) f
            (Except.ok v) d).final).activeCalls (p.callId.getD f)
          = some ToolState.completed)
    ∧ (∀ m : String,
      (handleRequest s "arp.callTool" (ReqParams.callTool p) f (Except.error m) d).response
          = Except.ok (Response.result (RpcResult.callResult
              { callId := p.callId.getD f, state := ToolState.failed,
                error := some m, duration := d }))
      ∧ getCall ((handleRequest s "arp.callTool" (ReqParams.callTool p) f
            (Except.error m) d).final).activeCalls (p.callId.getD f)
          = some ToolState.failed) := by
  constructor
  · intro v
    rw [handleRequest_callTool s (ReqParams.callTool p) f (Except.ok v) d hinit]
    constructor
    · simp [ReqParams.asCallTool, handleCallTool, hstop, hfind, hbusy, hcons, hconf,
        wrapOutcome, Except.map]
    · simp [ReqParams.asCallTool, handleCallTool, hstop, hfind, hbusy, hcons, hconf,
        getCall_setCall]
  · intro m
    rw [handleRequest_callTool s (ReqParams.callTool p) f (Except.error m) d hinit]
    constructor
    · simp [ReqParams.asCallTool, handleCallTool, hstop, hfind, hbusy, hcons, hconf,
        wrapOutcome, Except.map]
    · simp [ReqParams.asCallTool, handleCallTool, hstop, hfind, hbusy, hcons, hconf,
        getCall_setCall]

/-- Witness for C3 at a concrete admitted call whose handler raises. -/
theorem C3_handler_outcomes_witness :
    (handleRequest testServer "arp.callTool"
        (ReqParams.callTool { name := "move_to", callId := some "c7" })
        "f" (Except.error "motor stalled") 3).response
      = Except.ok (Response.result (RpcResult.callResult
          { callId := "c7", state := ToolState.failed,
            error := some "motor stalled", duration := 3 })) :=
  ((C3_handler_outcomes testServer
    { name := "move_to", callId := some "c7" } "f" 3 move_to_tool
    rfl rfl rfl (by simp [testServer, getCall]) rfl rfl).2 "motor stalled").1

/-- C4 counterexample: a request whose method is not `arp.initialize`, sent
while the session is uninitialized, is not always answered with −40009: an
unknown method name is answered with −32601 (method lookup precedes the
initialization guard). -/
theorem C4_counterexample :
    (handleRequest {} "arp.foo" ReqParams.empty "c" (Except.ok PyVal.none) 0).response
        = Except.ok (Response.error ⟨-32601, "Method not found: arp.foo", Option.none⟩)
    ∧ (-32601 : Int) ≠ ARPErrorCode.NOT_INITIALIZED := by
  exact ⟨rfl, by decide⟩

/-- C4 (amended): for every method that is in the server's handler table
and is not `arp.initialize`, a request received while `initialized` is
false is answered with the JSON-RPC error −40009 (`NOT_INITIALIZED`) and
the state is unchanged, for every params value (unknown methods instead get
−32601 before the guard runs). -/
theorem C4_notInitialized_guard (s : ServerState) (method : String) (params : ReqParams)
    (f : String) (h : Except String PyVal) (d : ℚ)
    (hknown : knownMethods.contains method = true)
    (hne : method ≠ "arp.initialize")
    (hinit : s.initialized = false) :
    handleRequest s method params f h d
      = ⟨s, s, Except.ok (Response.error
          ⟨ARPErrorCode.NOT_INITIALIZED, "Not initialized", Option.none⟩)⟩ := by
  unfold handleRequest
  rw [hknown]
  simp [hne, hinit]

/-- Witness for the amended C4 at a concrete uninitialized session. -/
theorem C4_notInitialized_guard_witness :
    handleRequest {} "arp.listTools" ReqParams.empty "c" (Except.ok PyVal.none) 0
      = ⟨{}, {}, Except.ok (Response.error
          ⟨ARPErrorCode.NOT_INITIALIZED, "Not initialized", Option.none⟩)⟩ :=
  C4_notInitialized_guard {} "arp.listTools" ReqParams.empty "c" (Except.ok PyVal.none) 0
    rfl (by decide) rfl

/-- C10: `arp.getConstraint` for an unregistered name fails with code
−40001 — `SAFETY_VIOLATION`, the same code used for safety rejections, not
a dedicated not-found code — and message "Constraint not found: <name>";
for a registered name it returns that constraint's descriptor. -/
theorem C10_getConstraint_behaviour (s : ServerState) (name : String) :
    (findConstraint s.constraints name = Option.none →
      handleGetConstraint s name
        = (s, Except.error (PyExc.arp
            ⟨ARPErrorCode.SAFETY_VIOLATION, "Constraint not found: " ++ name, Option.none⟩))
      ∧ ARPErrorCode.SAFETY_VIOLATION = -40001)
    ∧ (∀ c, findConstraint s.constraints name = some c →
        handleGetConstraint s name = (s, Except.ok (RpcResult.constraintResult c))) := by
  constructor
  · intro hnone
    unfold handleGetConstraint
    rw [hnone]
    exact ⟨rfl, rfl⟩
  · intro c hc
    unfold handleGetConstraint
    rw [hc]

theorem contains_eq_false_iff (l : List String) (a : String) :
    l.contains a = false ↔ a ∉ l := by
  rw [Bool.eq_false_iff]
  exact not_congr List.elem_iff

/-- C8: for a registered source, subscribing twice leaves exactly one live
task and both calls answer `{subscribed: name}`; a following unsubscribe
removes the task and answers `{unsubscribed: name}`; unsubscribing with no
live task still answers `{unsubscribed: name}`; subscribing an unregistered
name fails with −40008 (`CONTEXT_NOT_FOUND`) and creates no task. -/
theorem C8_subscription_lifecycle (s : ServerState) (name : String) (r1 r2 : Option ℚ)
    (hsrc : (findSource s.contextSources name).isSome = true)
    (hnodup : s.contextTasks.Nodup) :
    (handleSubscribeContext s name r1).2 = Except.ok (RpcResult.subscribedResult name)
    ∧ (handleSubscribeContext (handleSubscribeContext s name r1).1 name r2).2
        = Except.ok (RpcResult.subscribedResult name)
    ∧ ((handleSubscribeContext s name r1).1).contextTasks.count name = 1
    ∧ (handleSubscribeContext (handleSubscribeContext s name r1).1 name r2).1
        = (handleSubscribeContext s name r1).1
    ∧ (handleUnsubscribeContext (handleSubscribeContext s name r1).1 name).2
        = Except.ok (RpcResult.unsubscribedResult name)
    ∧ ((handleUnsubscribeContext (handleSubscribeContext s name r1).1 name).1).contextTasks.contains
        name = false
    ∧ (∀ (s' : ServerState) (n' : String), s'.contextTasks.contains n' = false →
        handleUnsubscribeContext s' n' = (s', Except.ok (RpcResult.unsubscribedResult n')))
    ∧ (∀ (s' : ServerState) (n' : String) (r' : Option ℚ),
        findSource s'.contextSources n' = Option.none →
        handleSubscribeContext s' n' r' = (s', Except.error (PyExc.arp
          ⟨ARPErrorCode.CONTEXT_NOT_FOUND, "Context source not found: " ++ n', Option.none⟩))) := by
  obtain ⟨src, hfind⟩ := Option.isSome_iff_exists.mp hsrc
  have noTask : ∀ (s' : ServerState) (n' : String), s'.contextTasks.contains n' = false →
      handleUnsubscribeContext s' n' = (s', Except.ok (RpcResult.unsubscribedResult n')) := by
    intro s' n' hc
    unfold handleUnsubscribeContext
    rw [hc]
    simp
  have noSrc : ∀ (s' : ServerState) (n' : String) (r' : Option ℚ),
      findSource s'.contextSources n' = Option.none →
      handleSubscribeContext s' n' r' = (s', Except.error (PyExc.arp
        ⟨ARPErrorCode.CONTEXT_NOT_FOUND, "Context source not found: " ++ n', Option.none⟩)) := by
    intro s' n' r' hn
    unfold handleSubscribeContext
    rw [hn]
  by_cases hc : s.contextTasks.contains name = true
  · have hmem : name ∈ s.contextTasks := List.elem_iff.mp hc
    have h1 : handleSubscribeContext s name r1 = (s, Except.ok (RpcResult.subscribedResult name)) := by
      unfold handleSubscribeContext
      rw [hfind, hc]
      simp
    rw [h1]
    have h2 : handleSubscribeContext s name r2 = (s, Except.ok (RpcResult.subscribedResult name)) := by
      unfold handleSubscribeContext
      rw [hfind, hc]
      simp
    have h3 : handleUnsubscribeContext s name
        = ({ s with contextTasks := s.contextTasks.erase name },
           Except.ok (RpcResult.unsubscribedResult name)) := by
      unfold handleUnsubscribeContext
      rw [hc]
      simp
    refine ⟨rfl, by rw [h2], List.count_eq_one_of_mem hnodup hmem, by rw [h2], by rw [h3], ?_,
      noTask, noSrc⟩
    rw [h3]
    exact (contains_eq_false_iff _ _).mpr hnodup.not_mem_erase
  · have hc' : s.contextTasks.contains name = false := by
      cases h : s.contextTasks.contains name with
      | true => exact absurd h hc
      | false => rfl
    have hmem : name ∉ s.contextTasks := (contains_eq_false_iff _ _).mp hc'
    have h1 : handleSubscribeContext s name r1
        = ({ s with contextTasks := s.contextTasks ++ [name] },
           Except.ok (RpcResult.subscribedResult name)) := by
      unfold handleSubscribeContext
      rw [hfind, hc']
      simp
    rw [h1]
    have hc2 : (s.contextTasks ++ [name]).contains name = true :=
      List.elem_iff.mpr (List.mem_append_right _ (List.mem_singleton.mpr rfl))
    have h2 : handleSubscribeContext { s with contextTasks := s.contextTasks ++ [name] } name r2
        = ({ s with contextTasks := s.contextTasks ++ [name] },
           Except.ok (RpcResult.subscribedResult name)) := by
      unfold handleSubscribeContext
      rw [hfind, hc2]
      simp
    have herase : (s.contextTasks ++ [name]).erase name = s.contextTasks := by
      rw [List.erase_append_right _ hmem, List.erase_cons_head, List.append_nil]
    have h3 : handleUnsubscribeContext { s with contextTasks := s.contextTasks ++ [name] } name
        = ({ s with contextTasks := s.contextTasks },
           Except.ok (RpcResult.unsubscribedResult name)) := by
      unfold handleUnsubscribeContext
      rw [hc2, herase]
      simp
    refine ⟨rfl, by rw [h2], ?_, by rw [h2], by rw [h3], ?_, noTask, noSrc⟩
    · rw [List.count_append, List.count_eq_zero.mpr hmem]
      simp
    · rw [h3]
      exact hc'

/-- Witness for C8 at a concrete one-source registry. -/
theorem C8_subscription_lifecycle_witness :
    (handleSubscribeContext
        { contextSources := [{ name := "odometry" }] } "odometry" Option.none).2
      = Except.ok (RpcResult.subscribedResult "odometry") :=
  (C8_subscription_lifecycle { contextSources := [{ name := "odometry" }] } "odometry"
    Option.none Option.none rfl List.nodup_nil).1

/-- Witness for C10 at a concrete one-constraint registry. -/
theorem C10_getConstraint_behaviour_witness :
    handleGetConstraint
        { constraints := [{ name := "ws", type := ConstraintType.workspace_bound }] } "ws"
      = ({ constraints := [{ name := "ws", type := ConstraintType.workspace_bound }] },
         Except.ok (RpcResult.constraintResult
           { name := "ws", type := ConstraintType.workspace_bound })) :=
  (C10_getConstraint_behaviour
    { constraints := [{ name := "ws", type := ConstraintType.workspace_bound }] } "ws").2
    { name := "ws", type := ConstraintType.workspace_bound } rfl

theorem callTool_trans (s : ServerState) (p : CallToolParams) (f : String)
    (h : Except String PyVal) (d : ℚ) (cid : String) :
    callTransOk (getCall s.activeCalls cid)
        (getCall (handleCallTool s p f h d).mid.activeCalls cid)
    ∧ callTransOk (getCall (handleCallTool s p f h d).mid.activeCalls cid)
        (getCall (handleCallTool s p f h d).final.activeCalls cid) := by
  unfold handleCallTool
  by_cases hstop : s.emergencyStopped
  · simp [hstop, callTransOk]
  · simp only [hstop]
    cases hfind : findTool s.tools p.name with
    | none => simp [callTransOk]
    | some t =>
      by_cases hbusy : getCall s.activeCalls (p.callId.getD f) = some ToolState.running
      · simp [hbusy, callTransOk]
      · simp only [hbusy, if_neg, if_false]
        cases hcons : checkConstraints p.name s.constraints p.arguments with
        | error e => simp [callTransOk]
        | ok r =>
          cases r with
          | some v => simp [callTransOk]
          | none =>
            by_cases hconf : t.safety.requires_confirmation
            · simp [hconf, callTransOk]
            · simp only [hconf, Bool.false_eq_true, if_false]
              cases h with
              | ok v =>
                constructor
                · simp only [getCall_setCall]
                  by_cases hc : p.callId.getD f = cid
                  · rw [if_pos hc]
                    exact Or.inr (Or.inl ⟨rfl, hc ▸ hbusy⟩)
                  · rw [if_neg hc]
                    exact Or.inl rfl
                · simp only [getCall_setCall]
                  by_cases hc : p.callId.getD f = cid
                  · rw [if_pos hc, if_pos hc]
                    exact Or.inr (Or.inr (Or.inl ⟨rfl, Or.inl rfl⟩))
                  · rw [if_neg hc, if_neg hc]
                    exact Or.inl rfl
              | error m =>
                constructor
                · simp only [getCall_setCall]
                  by_cases hc : p.callId.getD f = cid
                  · rw [if_pos hc]
                    exact Or.inr (Or.inl ⟨rfl, hc ▸ hbusy⟩)
                  · rw [if_neg hc]
                    exact Or.inl rfl
                · simp only [getCall_setCall]
                  by_cases hc : p.callId.getD f = cid
                  · rw [if_pos hc, if_pos hc]
                    exact Or.inr (Or.inr (Or.inl ⟨rfl, Or.inr (Or.inl rfl)⟩))
                  · rw [if_neg hc, if_neg hc]
                    exact Or.inl rfl

theorem handleRequest_unknown (s : ServerState) (m : String) (p : ReqParams) (f : String)
    (h : Except String PyVal) (d : ℚ) (hk : knownMethods.contains m = false) :
    handleRequest s m p f h d
      = ⟨s, s, Except.ok (Response.error
          ⟨-32601, "Method not found: " ++ m, Option.none⟩)⟩ := by
  unfold handleRequest
  rw [hk]
  simp

theorem method_cases (m : String) (hk : knownMethods.contains m = true) :
    m = "arp.initialize" ∨ m = "arp.shutdown" ∨ m = "arp.listTools" ∨ m = "arp.callTool"
    ∨ m = "arp.cancelTool" ∨ m = "arp.listContext" ∨ m = "arp.subscribeContext"
    ∨ m = "arp.unsubscribeContext" ∨ m = "arp.listConstraints" ∨ m = "arp.getConstraint"
    ∨ m = "arp.setWorkspace" := by
  have := List.elem_iff.mp hk
  simpa [knownMethods] using this

theorem request_trans (s : ServerState) (m : String) (p : ReqParams) (f : String)
    (h : Except String PyVal) (d : ℚ) (cid : String) :
    callTransOk (getCall s.activeCalls cid)
        (getCall (handleRequest s m p f h d).mid.activeCalls cid)
    ∧ callTransOk (getCall (handleRequest s m p f h d).mid.activeCalls cid)
        (getCall (handleRequest s m p f h d).final.activeCalls cid) := by
  by_cases hk : knownMethods.contains m = true
  · rcases method_cases m hk with rfl|rfl|rfl|rfl|rfl|rfl|rfl|rfl|rfl|rfl|rfl
    · simp [handleRequest, knownMethods, handleInit, callTransOk, apply_ite]
    · by_cases hi : s.initialized = false
      · simp [handleRequest, knownMethods, hi, callTransOk]
      · simp [handleRequest, knownMethods, hi, handleShutdown, callTransOk]
    · by_cases hi : s.initialized = false
      · simp [handleRequest, knownMethods, hi, callTransOk]
      · simp [handleRequest, knownMethods, hi, handleListTools, callTransOk]
    · by_cases hi : s.initialized = false
      · simp [handleRequest, knownMethods, hi, callTransOk]
      · have hinit : s.initialized = true := by
          cases hb : s.initialized with
          | true => rfl
          | false => exact absurd hb hi
        rw [handleRequest_callTool s p f h d hinit]
        exact callTool_trans s p.asCallTool f h d cid
    · by_cases hi : s.initialized = false
      · simp [handleRequest, knownMethods, hi, callTransOk]
      · have hred : handleRequest s "arp.cancelTool" p f h d
            = ⟨(handleCancelTool s p.asCallId).1, (handleCancelTool s p.asCallId).1,
               wrapOutcome (handleCancelTool s p.asCallId).2⟩ := by
          simp [handleRequest, knownMethods, hi]
        rw [hred]
        unfold handleCancelTool
        by_cases hp : (getCall s.activeCalls p.asCallId).isSome = true
        · rw [if_pos hp]
          refine ⟨?_, Or.inl rfl⟩
          simp only [getCall_setCall]
          by_cases hc : p.asCallId = cid
          · rw [if_pos hc]
            exact Or.inr (Or.inr (Or.inr ⟨hc ▸ hp, rfl⟩))
          · rw [if_neg hc]
            exact Or.inl rfl
        · rw [if_neg hp]
          simp [callTransOk]
    · by_cases hi : s.initialized = false
      · simp [handleRequest, knownMethods, hi, callTransOk]
      · simp [handleRequest, knownMethods, hi, handleListContext, callTransOk]
    · by_cases hi : s.initialized = false
      · simp [handleRequest, knownMethods, hi, callTransOk]
      · have hred : handleRequest s "arp.subscribeContext" p f h d
            = ⟨(handleSubscribeContext s p.asName p.asMaxRate).1,
               (handleSubscribeContext s p.asName p.asMaxRate).1,
               wrapOutcome (handleSubscribeContext s p.asName p.asMaxRate).2⟩ := by
          simp [handleRequest, knownMethods, hi]
        rw [hred]
        unfold handleSubscribeContext
        cases hs : findSource s.contextSources p.asName with
        | none => simp [callTransOk]
        | some src =>
          cases ht : s.contextTasks.contains p.asName with
          | true => simp [callTransOk]
          | false => simp [callTransOk]
    · by_cases hi : s.initialized = false
      · simp [handleRequest, knownMethods, hi, callTransOk]
      · have hred : handleRequest s "arp.unsubscribeContext" p f h d
            = ⟨(handleUnsubscribeContext s p.asName).1, (handleUnsubscribeContext s p.asName).1,
               wrapOutcome (handleUnsubscribeContext s p.asName).2⟩ := by
          simp [handleRequest, knownMethods, hi]
        rw [hred]
        unfold handleUnsubscribeContext
        cases ht : s.contextTasks.contains p.asName with
        | true => simp [callTransOk]
        | false => simp [callTransOk]
    · by_cases hi : s.initialized = false
      · simp [handleRequest, knownMethods, hi, callTransOk]
      · simp [handleRequest, knownMethods, hi, handleListConstraints, callTransOk]
    · by_cases hi : s.initialized = false
      · simp [handleRequest, knownMethods, hi, callTransOk]
      · have hred : handleRequest s "arp.getConstraint" p f h d
            = ⟨(handleGetConstraint s p.asName).1, (handleGetConstraint s p.asName).1,
               wrapOutcome (handleGetConstraint s p.asName).2⟩ := by
          simp [handleRequest, knownMethods, hi]
        rw [hred]
        unfold handleGetConstraint
        cases hc : findConstraint s.constraints p.asName with
        | none => simp [callTransOk]
        | some c => simp [callTransOk]
    · by_cases hi : s.initialized = false
      · simp [handleRequest, knownMethods, hi, callTransOk]
      · simp [handleRequest, knownMethods, hi, handleSetWorkspace, callTransOk]
  · have hk' : knownMethods.contains m = false := by
      cases hb : knownMethods.contains m with
      | true => exact absurd hb hk
      | false => rfl
    rw [handleRequest_unknown s m p f h d hk']
    simp [callTransOk]

/-- C5 (amended): per processed frame, each active-call record moves only
along: admission of an id not currently `running` (absent, or in any
non-running state on a reused id) to `running`; `running` to `completed` or
`failed` at handler return; any present record, whatever its state, to
`cancelled` on explicit `arp.cancelTool`; `running` to `cancelled` on
emergency stop; or stays unchanged.  (The original claim is refuted by
`C5_counterexample` below: `arp.cancelTool` also cancels `completed` and
`failed` records.) -/
theorem C5_call_state_transitions (s : ServerState) (e : Event) (cid : String) :
    callTransOk (getCall s.activeCalls cid) (getCall (step s e).mid.activeCalls cid)
    ∧ callTransOk (getCall (step s e).mid.activeCalls cid)
        (getCall (step s e).final.activeCalls cid) := by
  cases e with
  | request m p f h d => exact request_trans s m p f h d cid
  | notification m reason =>
    simp only [step]
    by_cases hm : m = "arp.emergencyStop"
    · rw [if_pos hm]
      refine ⟨?_, Or.inl rfl⟩
      unfold handleEmergencyStop
      simp only [getCall_map_cancel]
      by_cases hr : getCall s.activeCalls cid = some ToolState.running
      · rw [if_pos hr]
        exact Or.inr (Or.inr (Or.inl ⟨hr, Or.inr (Or.inr rfl)⟩))
      · rw [if_neg hr]
        exact Or.inl rfl
    · rw [if_neg hm]
      simp [callTransOk]


/-- C5 counterexample: `arp.cancelTool` on a `completed` record moves it to
`cancelled`, a transition the claim rules out (the code overwrites any
present record). -/
theorem C5_counterexample :
    getCall ({ initialized := true,
               activeCalls := [("c1", ToolState.completed)] } : ServerState).activeCalls "c1"
        = some ToolState.completed
    ∧ getCall (step { initialized := true, activeCalls := [("c1", ToolState.completed)] }
        (Event.request "arp.cancelTool" (ReqParams.cancelTool "c1") "f"
          (Except.ok PyVal.none) 0)).final.activeCalls "c1"
        = some ToolState.cancelled :=
  ⟨rfl, rfl⟩

theorem callTool_estop_eq (s : ServerState) (p : CallToolParams) (f : String)
    (h : Except String PyVal) (d : ℚ) :
    (handleCallTool s p f h d).mid.emergencyStopped = s.emergencyStopped
    ∧ (handleCallTool s p f h d).final.emergencyStopped = s.emergencyStopped := by
  unfold handleCallTool
  by_cases hstop : s.emergencyStopped
  · simp [hstop]
  · simp only [hstop]
    cases hfind : findTool s.tools p.name with
    | none => simp [hstop]
    | some t =>
      by_cases hbusy : getCall s.activeCalls (p.callId.getD f) = some ToolState.running
      · simp [hbusy, hstop]
      · simp only [hbusy, if_false]
        cases hcons : checkConstraints p.name s.constraints p.arguments with
        | error e => simp [hstop]
        | ok r =>
          cases r with
          | some v => simp [hstop]
          | none =>
            by_cases hconf : t.safety.requires_confirmation
            · simp [hconf, hstop]
            · simp only [hconf, Bool.false_eq_true, if_false]
              cases h with
              | ok v => simp [hstop]
              | error m => simp [hstop]

theorem request_estop_eq (s : ServerState) (m : String) (p : ReqParams) (f : String)
    (h : Except String PyVal) (d : ℚ) :
    (handleRequest s m p f h d).mid.emergencyStopped = s.emergencyStopped
    ∧ (handleRequest s m p f h d).final.emergencyStopped = s.emergencyStopped := by
  by_cases hk : knownMethods.contains m = true
  · rcases method_cases m hk with rfl|rfl|rfl|rfl|rfl|rfl|rfl|rfl|rfl|rfl|rfl
    · simp [handleRequest, knownMethods, handleInit, apply_ite]
    · by_cases hi : s.initialized = false
      · simp [handleRequest, knownMethods, hi]
      · simp [handleRequest, knownMethods, hi, handleShutdown]
    · by_cases hi : s.initialized = false
      · simp [handleRequest, knownMethods, hi]
      · simp [handleRequest, knownMethods, hi, handleListTools]
    · by_cases hi : s.initialized = false
      · simp [handleRequest, knownMethods, hi]
      · have hinit : s.initialized = true := by
          cases hb : s.initialized with
          | true => rfl
          | false => exact absurd hb hi
        rw [handleRequest_callTool s p f h d hinit]
        exact callTool_estop_eq s p.asCallTool f h d
    · by_cases hi : s.initialized = false
      · simp [handleRequest, knownMethods, hi]
      · have hred : handleRequest s "arp.cancelTool" p f h d
            = ⟨(handleCancelTool s p.asCallId).1, (handleCancelTool s p.asCallId).1,
               wrapOutcome (handleCancelTool s p.asCallId).2⟩ := by
          simp [handleRequest, knownMethods, hi]
        rw [hred]
        unfold handleCancelTool
        by_cases hp : (getCall s.activeCalls p.asCallId).isSome = true
        · rw [if_pos hp]
          simp
        · rw [if_neg hp]
          simp
    · by_cases hi : s.initialized = false
      · simp [handleRequest, knownMethods, hi]
      · simp [handleRequest, knownMethods, hi, handleListContext]
    · by_cases hi : s.initialized = false
      · simp [handleRequest, knownMethods, hi]
      · have hred : handleRequest s "arp.subscribeContext" p f h d
            = ⟨(handleSubscribeContext s p.asName p.asMaxRate).1,
               (handleSubscribeContext s p.asName p.asMaxRate).1,
               wrapOutcome (handleSubscribeContext s p.asName p.asMaxRate).2⟩ := by
          simp [handleRequest, knownMethods, hi]
        rw [hred]
        unfold handleSubscribeContext
        cases hs : findSource s.contextSources p.asName with
        | none => simp
        | some src =>
          cases ht : s.contextTasks.contains p.asName with
          | true => simp
          | false => simp
    · by_cases hi : s.initialized = false
      · simp [handleRequest, knownMethods, hi]
      · have hred : handleRequest s "arp.unsubscribeContext" p f h d
            = ⟨(handleUnsubscribeContext s p.asName).1, (handleUnsubscribeContext s p.asName).1,
               wrapOutcome (handleUnsubscribeContext s p.asName).2⟩ := by
          simp [handleRequest, knownMethods, hi]
        rw [hred]
        unfold handleUnsubscribeContext
        cases ht : s.contextTasks.contains p.asName with
        | true => simp
        | false => simp
    · by_cases hi : s.initialized = false
      · simp [handleRequest, knownMethods, hi]
      · simp [handleRequest, knownMethods, hi, handleListConstraints]
    · by_cases hi : s.initialized = false
      · simp [handleRequest, knownMethods, hi]
      · have hred : handleRequest s "arp.getConstraint" p f h d
            = ⟨(handleGetConstraint s p.asName).1, (handleGetConstraint s p.asName).1,
               wrapOutcome (handleGetConstraint s p.asName).2⟩ := by
          simp [handleRequest, knownMethods, hi]
        rw [hred]
        unfold handleGetConstraint
        cases hc : findConstraint s.constraints p.asName with
        | none => simp
        | some c => simp
    · by_cases hi : s.initialized = false
      · simp [handleRequest, knownMethods, hi]
      · simp [handleRequest, knownMethods, hi, handleSetWorkspace]
  · have hk' : knownMethods.contains m = false := by
      cases hb : knownMethods.contains m with
      | true => exact absurd hb hk
      | false => rfl
    rw [handleRequest_unknown s m p f h d hk']
    exact ⟨rfl, rfl⟩

theorem step_estop_mono (s : ServerState) (e : Event) (hs : s.emergencyStopped = true) :
    (step s e).mid.emergencyStopped = true ∧ (step s e).final.emergencyStopped = true := by
  cases e with
  | request m p f h d =>
    simp only [step]
    exact ⟨(request_estop_eq s m p f h d).1.trans hs, (request_estop_eq s m p f h d).2.trans hs⟩
  | notification m reason =>
    simp only [step]
    by_cases hm : m = "arp.emergencyStop"
    · rw [if_pos hm]
      exact ⟨rfl, rfl⟩
    · rw [if_neg hm]
      exact ⟨hs, hs⟩

/-- C9: no request or notification handler ever clears the latched
emergency-stop flag (requests leave it unchanged, `arp.emergencyStop` sets
it); `arp.shutdown` clears the subscription tasks and the initialized flag
but keeps the emergency-stop flag; hence after emergency stop, shutdown,
and a fresh `arp.initialize` on the same server, `arp.callTool` is still
rejected with −40007 (`EMERGENCY_STOPPED`). -/
theorem C9_emergency_stop_sticky (s : ServerState) (reason : String) (p : ReqParams) (f : String)
    (h : Except String PyVal) (d : ℚ) (hinit : s.initialized = true) :
    (∀ (s2 : ServerState) (e : Event), s2.emergencyStopped = true →
      (step s2 e).mid.emergencyStopped = true ∧ (step s2 e).final.emergencyStopped = true)
    ∧ (∀ s2 : ServerState, (handleShutdown s2).1.contextTasks = []
        ∧ (handleShutdown s2).1.initialized = false
        ∧ (handleShutdown s2).1.emergencyStopped = s2.emergencyStopped)
    ∧ (step (step (step (step s (Event.notification "arp.emergencyStop" reason)).final
          (Event.request "arp.shutdown" ReqParams.empty "" (Except.ok PyVal.none) 0)).final
          (Event.request "arp.initialize" ReqParams.empty "" (Except.ok PyVal.none) 0)).final
          (Event.request "arp.callTool" p f h d)).response
        = some (Except.ok (Response.error
            ⟨ARPErrorCode.EMERGENCY_STOPPED, "Emergency stop active", Option.none⟩)) := by
  refine ⟨step_estop_mono, fun s2 => ⟨rfl, rfl, rfl⟩, ?_⟩
  have h1 : (step s (Event.notification "arp.emergencyStop" reason)).final
      = handleEmergencyStop s reason := by
    simp [step]
  rw [h1]
  have h2 : (step (handleEmergencyStop s reason)
        (Event.request "arp.shutdown" ReqParams.empty "" (Except.ok PyVal.none) 0)).final
      = { handleEmergencyStop s reason with contextTasks := [], initialized := false } := by
    simp [step, handleRequest, knownMethods, handleEmergencyStop, hinit, handleShutdown]
  rw [h2]
  have h3 : (step { handleEmergencyStop s reason with contextTasks := [], initialized := false }
        (Event.request "arp.initialize" ReqParams.empty "" (Except.ok PyVal.none) 0)).final
      = { handleEmergencyStop s reason with contextTasks := [], initialized := true } := by
    simp [step, handleRequest, knownMethods, handleInit]
  rw [h3]
  have hinit3 : ({ handleEmergencyStop s reason with
      contextTasks := [], initialized := true } : ServerState).initialized = true := rfl
  have hstop3 : ({ handleEmergencyStop s reason with
      contextTasks := [], initialized := true } : ServerState).emergencyStopped = true := rfl
  simp only [step]
  rw [handleRequest_callTool _ p f h d hinit3]
  simp [handleCallTool, handleEmergencyStop, wrapOutcome, Except.map]


/-- Witness for C9: the stop–shutdown–reinitialize–call scenario at a
concrete session. -/
theorem C9_emergency_stop_sticky_witness :
    (step (step (step (step testServer (Event.notification "arp.emergencyStop" "fire")).final
        (Event.request "arp.shutdown" ReqParams.empty "" (Except.ok PyVal.none) 0)).final
        (Event.request "arp.initialize" ReqParams.empty "" (Except.ok PyVal.none) 0)).final
        (Event.request "arp.callTool" (ReqParams.callTool { name := "move_to" }) "w"
          (Except.ok PyVal.none) 0)).response
      = some (Except.ok (Response.error
          ⟨ARPErrorCode.EMERGENCY_STOPPED, "Emergency stop active", Option.none⟩)) :=
  (C9_emergency_stop_sticky testServer "fire" (ReqParams.callTool { name := "move_to" }) "w"
    (Except.ok PyVal.none) 0 rfl).2.2

/-- C7 counterexample: an enabled `velocity_limit` constraint with
`max_linear = -1` and numeric `arguments.velocity = 0` (speed absent): the
claim demands a violation (0 is numeric and 0 > −1) but the evaluator
reports none — Python `velocity or speed` treats the falsy 0 as missing
and the combined value becomes `None`. -/
theorem C7_counterexample :
    checkConstraints "move_to"
        [{ name := "vlim", type := ConstraintType.velocity_limit,
           parameters := { max_linear := some (-1) } }]
        [("velocity", PyVal.num 0)]
      = Except.ok Option.none
    ∧ (PyVal.num 0).isNumLike = true ∧ ((PyVal.num 0).toQ > (-1 : ℚ)) := by
  refine ⟨rfl, rfl, by norm_num [PyVal.toQ]⟩

theorem checkConstraints_single_vel (t : String) (c : SafetyConstraint) (args : Dict)
    (htype : c.type = ConstraintType.velocity_limit) (hen : c.enabled = true) :
    checkConstraints t [c] args = Except.ok (velCheck c args) := by
  simp only [checkConstraints, checkOne, htype, hen]
  cases hv : velCheck c args with
  | none => rfl
  | some v => rfl

theorem velCheck_char (c : SafetyConstraint) (args : Dict) (m : ℚ)
    (hm : c.parameters.max_linear = some m) :
    velCheck c args
      = (if (pyOr (pyGet args "velocity") (pyGet args "speed")).isNone = true then Option.none
         else if (pyOr (pyGet args "velocity") (pyGet args "speed")).isNumLike = true
             ∧ (pyOr (pyGet args "velocity") (pyGet args "speed")).toQ > m
           then some (velViolationMsg (pyOr (pyGet args "velocity") (pyGet args "speed")) m)
           else Option.none) := by
  unfold velCheck
  rw [hm]

theorem velCheck_char_none (c : SafetyConstraint) (args : Dict)
    (hm : c.parameters.max_linear = Option.none) :
    velCheck c args = Option.none := by
  unfold velCheck
  rw [hm]
  cases hn : (pyOr (pyGet args "velocity") (pyGet args "speed")).isNone with
  | true => rw [if_pos hn]
  | false => rw [if_neg (by rw [hn]; exact Bool.false_ne_true)]

/-- C7 (amended): the evaluator checks the single combined value
`v = arguments.velocity if truthy else arguments.speed` (Python `or`);
when `max_linear = m` is set, a violation — described
"Velocity <v> exceeds limit <m>" — is reported exactly when `v` is not
`None`, is numeric, and `v > m`; when `max_linear` is absent (default +∞)
or both arguments are absent there is no velocity violation.  In
particular a zero (falsy) velocity defers to `speed` and, with `speed`
absent, is never checked — not even against a negative limit. -/
theorem C7_velocity_rule (t : String) (c : SafetyConstraint) (args : Dict)
    (htype : c.type = ConstraintType.velocity_limit) (hen : c.enabled = true) :
    (∀ m : ℚ, c.parameters.max_linear = some m →
      (checkConstraints t [c] args
          = Except.ok (some (velViolationMsg
              (pyOr (pyGet args "velocity") (pyGet args "speed")) m))
        ↔ ((pyOr (pyGet args "velocity") (pyGet args "speed")).isNone = false
            ∧ (pyOr (pyGet args "velocity") (pyGet args "speed")).isNumLike = true
            ∧ (pyOr (pyGet args "velocity") (pyGet args "speed")).toQ > m))
      ∧ (¬((pyOr (pyGet args "velocity") (pyGet args "speed")).isNone = false
            ∧ (pyOr (pyGet args "velocity") (pyGet args "speed")).isNumLike = true
            ∧ (pyOr (pyGet args "velocity") (pyGet args "speed")).toQ > m) →
          checkConstraints t [c] args = Except.ok Option.none))
    ∧ (c.parameters.max_linear = Option.none →
        checkConstraints t [c] args = Except.ok Option.none)
    ∧ (pyGet args "velocity" = PyVal.none → pyGet args "speed" = PyVal.none →
        checkConstraints t [c] args = Except.ok Option.none) := by
  rw [checkConstraints_single_vel t c args htype hen]
  refine ⟨?_, ?_, ?_⟩
  · intro m hm
    rw [velCheck_char c args m hm]
    constructor
    · constructor
      · intro heq
        by_cases hn : (pyOr (pyGet args "velocity") (pyGet args "speed")).isNone = true
        · rw [if_pos hn] at heq
          exact absurd heq (by simp)
        · rw [if_neg hn] at heq
          by_cases hcond : (pyOr (pyGet args "velocity") (pyGet args "speed")).isNumLike = true
              ∧ (pyOr (pyGet args "velocity") (pyGet args "speed")).toQ > m
          · exact ⟨Bool.eq_false_iff.mpr hn, hcond.1, hcond.2⟩
          · rw [if_neg hcond] at heq
            exact absurd heq (by simp)
      · rintro ⟨hn, hnum, hgt⟩
        rw [if_neg (by rw [hn]; exact Bool.false_ne_true), if_pos ⟨hnum, hgt⟩]
    · intro hnot
      by_cases hn : (pyOr (pyGet args "velocity") (pyGet args "speed")).isNone = true
      · rw [if_pos hn]
      · rw [if_neg hn, if_neg ?_]
        intro hcond
        exact hnot ⟨Bool.eq_false_iff.mpr hn, hcond.1, hcond.2⟩
  · intro hm
    rw [velCheck_char_none c args hm]
  · intro h1 h2
    have hv : pyOr (pyGet args "velocity") (pyGet args "speed") = PyVal.none := by
      rw [h1, h2]
      rfl
    cases hm : c.parameters.max_linear with
    | none => rw [velCheck_char_none c args hm]
    | some m =>
      rw [velCheck_char c args m hm, hv]
      rfl


/-- Witness for C7 at the `speed_limit` fixture with `velocity = 5`. -/
theorem C7_velocity_rule_witness :
    checkConstraints "move_to" [speed_limit] [("velocity", PyVal.num 5)]
      = Except.ok (some "Velocity 5 exceeds limit 1") :=
  ((C7_velocity_rule "move_to" speed_limit [("velocity", PyVal.num 5)] rfl rfl).1 1
    rfl).1.mpr ⟨rfl, rfl, by norm_num [PyVal.toQ, pyOr, pyGet, pyGetOpt, PyVal.truthy]⟩

theorem pyIndexQ_eq (xs : List ℚ) (i : Nat) (hi : i < xs.length) :
    pyIndexQ xs i = Except.ok (xs.getD i 0) := by
  obtain ⟨q, hq⟩ : ∃ q, xs.get? i = some q := ⟨_, List.get?_eq_get hi⟩
  unfold pyIndexQ
  rw [hq]
  have : xs.getD i 0 = q := by
    simp [List.getD_eq_getElem?_getD, List.get?_eq_getElem?] at *
    simp [hq]
  rw [this]

theorem coordViolates_num (p : ConstraintParams) (t : ℚ) (i : Nat) (hi : i < 3)
    (hmin : ∀ m, p.min = some m → m.length = 3)
    (hmax : ∀ m, p.max = some m → m.length = 3) :
    coordViolates p (PyVal.num t) i = Except.ok (specCoordViol p t i) := by
  unfold coordViolates coordBelowMin coordAboveMax specCoordViol
  cases hm : p.min with
  | none =>
    cases hx : p.max with
    | none => rfl
    | some mx =>
      dsimp only
      rw [pyIndexQ_eq mx i (by rw [hmax mx hx]; exact hi)]
      rfl
  | some mn =>
    dsimp only
    rw [pyIndexQ_eq mn i (by rw [hmin mn hm]; exact hi)]
    cases hx : p.max with
    | none =>
      show (if decide (t < mn.getD i 0) = true then (pure true : Except String Bool)
            else Except.ok false)
          = Except.ok (decide (t < mn.getD i 0) || false)
      cases hlt : decide (t < mn.getD i 0) <;> rfl
    | some mx =>
      dsimp only
      rw [pyIndexQ_eq mx i (by rw [hmax mx hx]; exact hi)]
      show (if decide (t < mn.getD i 0) = true then (pure true : Except String Bool)
            else Except.ok (decide (t > mx.getD i 0)))
          = Except.ok (decide (t < mn.getD i 0) || decide (t > mx.getD i 0))
      cases hlt : decide (t < mn.getD i 0) <;> rfl

theorem boundsWF_min (c : SafetyConstraint) (hb : boundsWF c = true) :
    ∀ m, c.parameters.min = some m → m.length = 3 := by
  intro m hm
  unfold boundsWF at hb
  rw [hm] at hb
  simp [Bool.and_eq_true] at hb
  exact hb.1

theorem boundsWF_max (c : SafetyConstraint) (hb : boundsWF c = true) :
    ∀ m, c.parameters.max = some m → m.length = 3 := by
  intro m hm
  unfold boundsWF at hb
  rw [hm] at hb
  simp [Bool.and_eq_true] at hb
  exact hb.2

theorem isNum_num (v : PyVal) (h : v.isNum = true) : ∃ q, v = PyVal.num q := by
  cases v with
  | num q => exact ⟨q, rfl⟩
  | none => exact absurd h (by simp [PyVal.isNum])
  | bool b => exact absurd h (by simp [PyVal.isNum])
  | str s => exact absurd h (by simp [PyVal.isNum])
  | list xs => exact absurd h (by simp [PyVal.isNum])

theorem wsCheck_eq_spec (c : SafetyConstraint) (args : Dict)
    (hb : boundsWF c = true) (ht : targetNumericB args = true) :
    wsCheck c args = Except.ok (specWsViolation c args) := by
  simp only [wsCheck, specWsViolation]
  cases hT : pyGet args "target" with
  | none => rfl
  | bool b => cases b <;> rfl
  | num q => cases htr : (PyVal.num q).truthy <;> rfl
  | str s => cases htr : (PyVal.str s).truthy <;> rfl
  | list xs =>
    by_cases hlen : 3 ≤ xs.length
    · have htruthy : (PyVal.list xs).truthy = true := by
        unfold PyVal.truthy
        cases xs with
        | nil => simp at hlen
        | cons a as => simp
      unfold targetNumericB at ht
      rw [hT] at ht
      dsimp only at ht
      rw [if_pos hlen] at ht
      simp only [Bool.and_eq_true] at ht
      obtain ⟨⟨h0, h1⟩, h2⟩ := ht
      obtain ⟨q0, hq0⟩ := isNum_num _ h0
      obtain ⟨q1, hq1⟩ := isNum_num _ h1
      obtain ⟨q2, hq2⟩ := isNum_num _ h2
      rw [if_pos htruthy]
      dsimp only
      rw [if_pos hlen, if_pos hlen, hq0, hq1, hq2]
      rw [coordViolates_num c.parameters q0 0 (by omega) (boundsWF_min c hb) (boundsWF_max c hb),
          coordViolates_num c.parameters q1 1 (by omega) (boundsWF_min c hb) (boundsWF_max c hb),
          coordViolates_num c.parameters q2 2 (by omega) (boundsWF_min c hb) (boundsWF_max c hb)]
      dsimp only
      cases hb0 : specCoordViol c.parameters q0 0 <;>
        cases hb1 : specCoordViol c.parameters q1 1 <;>
        cases hb2 : specCoordViol c.parameters q2 2 <;> rfl
    · simp [hlen]
      rfl

theorem checkOne_eq_spec (c : SafetyConstraint) (args : Dict)
    (hb : boundsWF c = true) (ht : targetNumericB args = true) :
    checkOne c args = Except.ok (specPerConstraint c args) := by
  unfold checkOne specPerConstraint
  by_cases hw : c.type = ConstraintType.workspace_bound
  · rw [if_pos hw, if_pos hw, wsCheck_eq_spec c args hb ht]
    cases hs : specWsViolation c args with
    | some v => rfl
    | none =>
      show (if c.type = ConstraintType.velocity_limit
            then (pure (velCheck c args) : Except String (Option String))
            else pure Option.none) = Except.ok Option.none
      rw [if_neg (by rw [hw]; intro hcontra; exact ConstraintType.noConfusion hcontra)]
      rfl
  · rw [if_neg hw, if_neg hw]
    show (if c.type = ConstraintType.velocity_limit
          then (pure (velCheck c args) : Except String (Option String))
          else pure Option.none)
        = Except.ok (if c.type = ConstraintType.velocity_limit then velCheck c args
            else Option.none)
    by_cases hv : c.type = ConstraintType.velocity_limit
    · rw [if_pos hv, if_pos hv]
      rfl
    · rw [if_neg hv, if_neg hv]
      rfl

/-- C6: the constraint evaluator walks the enabled constraints in
registration order and returns the first violation found; for an enabled
`workspace_bound` constraint (bounds length 3 when present, target entries
numeric when the target is a sequence of length ≥ 3) a violation is
reported exactly when some coordinate i ∈ {0,1,2} has target[i] < min[i]
or target[i] > max[i], missing min/max defaulting to −∞/+∞, with
description "Position <target> exceeds workspace boundary <name>"; disabled
constraints and arguments without such a target have no effect.  Stated as
an equality with the specification-side evaluator `specFirstViolation`,
whose workspace rule `specWsViolation` is transcribed from the
specification text. -/
theorem C6_evaluator_first_violation (toolName : String) (cs : List SafetyConstraint) (args : Dict)
    (hb : cs.all boundsWF = true) (ht : targetNumericB args = true) :
    checkConstraints toolName cs args = Except.ok (specFirstViolation cs args) := by
  induction cs with
  | nil => rfl
  | cons c rest ih =>
    simp only [List.all_cons, Bool.and_eq_true] at hb
    unfold checkConstraints specFirstViolation
    cases he : c.enabled with
    | false =>
      show checkConstraints toolName rest args = Except.ok (specFirstViolation rest args)
      exact ih hb.2
    | true =>
      show (checkOne c args >>= fun r => match r with
            | some v => pure (some v)
            | Option.none => checkConstraints toolName rest args)
          = Except.ok (match specPerConstraint c args with
            | some v => some v
            | Option.none => specFirstViolation rest args)
      rw [checkOne_eq_spec c args hb.1 ht]
      cases hv : specPerConstraint c args with
      | some v => rfl
      | none =>
        show checkConstraints toolName rest args = Except.ok (specFirstViolation rest args)
        exact ih hb.2


/-- Witness for C6 at the test fixture: target [5, 0, 0] violates
`workspace_limits` first. -/
theorem C6_evaluator_first_violation_witness :
    checkConstraints "move_to" [workspace_limits, speed_limit]
        [("target", PyVal.list [PyVal.num 5, PyVal.num 0, PyVal.num 0])]
      = Except.ok (some "Position [5, 0, 0] exceeds workspace boundary workspace_limits") :=
  C6_evaluator_first_violation "move_to" [workspace_limits, speed_limit]
    [("target", PyVal.list [PyVal.num 5, PyVal.num 0, PyVal.num 0])] rfl rfl

end ARP
